import Mathlib

/-!
Verification of the Amber NetCDF trajectory backend
(`ipi/utils/io/backends/io_nc.py`).

The development shallowly embeds the backend: the contents of an open
NetCDF file are a record of optional record variables (a variable may be
absent in a foreign file), the read handle (`NCInput`) carries the cached
shape tuple and the frame cursor, and the stateful Python functions become
functions returning an `Except` result paired with the post-state, so that
partial mutation before an exception is visible.  Real numbers stand for
the floating-point values of the source.
-/

namespace IoNc

/-- One row of a coordinates record: the three spatial components of an atom. -/
structure Vec3 where
  x : ℝ
  y : ℝ
  z : ℝ

/-- A 3×3 lattice matrix, columns are the lattice vectors:
column 0 is `(xx, yx, zx)`, column 1 is `(xy, yy, zy)`, column 2 is `(xz, yz, zz)`. -/
@[ext]
structure Mat3 where
  xx : ℝ
  xy : ℝ
  xz : ℝ
  yx : ℝ
  yy : ℝ
  yz : ℝ
  zx : ℝ
  zy : ℝ
  zz : ℝ

/-- The six cell parameters `(a, b, c, alpha, beta, gamma)`: three lattice
vector lengths and three inter-vector angles.  This is also the shape of the
6-element `cell` list taken by `AppendAmberFrame` (entries 0–2 the lengths,
entries 3–5 the angles in degrees). -/
structure CellParams where
  a : ℝ
  b : ℝ
  c : ℝ
  alpha : ℝ
  beta : ℝ
  gamma : ℝ

/-- Determinant of a `Mat3` (the signed cell volume). -/
def det3 (h : Mat3) : ℝ :=
  h.xx * (h.yy * h.zz - h.yz * h.zy)
    - h.xy * (h.yx * h.zz - h.yz * h.zx)
    + h.xz * (h.yx * h.zy - h.yy * h.zx)

/-- Degrees to radians, `numpy.deg2rad`: multiplication by π/180. -/
noncomputable def deg2rad (x : ℝ) : ℝ := x * Real.pi / 180

/-- Radians to degrees: multiplication by 180/π. -/
noncomputable def rad2deg (x : ℝ) : ℝ := x * 180 / Real.pi

/-- Modelled from the spec: `matrix_from_lengths_angles` /
`ipi.utils.mathtools.abc2h` (the `mathtools` module is not under `src/`).
Builds the canonical lattice matrix from lengths `a b c` and angles
`al be ga` in radians: the first lattice vector along the x axis, the
second in the x-y plane (an upper-triangular matrix in column convention). -/
noncomputable def abc2h (a b c al be ga : ℝ) : Mat3 :=
  let xy := b * Real.cos ga
  let xz := c * Real.cos be
  let yy := b * Real.sin ga
  let yz := (b * c * Real.cos al - xy * xz) / yy
  let zz := Real.sqrt (c ^ 2 - xz ^ 2 - yz ^ 2)
  ⟨a, xy, xz, 0, yy, yz, 0, 0, zz⟩

/-- Modelled from the spec: `lengths_angles_from_matrix` /
`ipi.utils.mathtools.h2abc` (the `mathtools` module is not under `src/`).
Returns the lattice vector lengths and the three inter-vector angles in
radians: `alpha` between vectors b and c, `beta` between a and c, `gamma`
between a and b. -/
noncomputable def h2abc (h : Mat3) : CellParams :=
  let a := Real.sqrt (h.xx ^ 2 + h.yx ^ 2 + h.zx ^ 2)
  let b := Real.sqrt (h.xy ^ 2 + h.yy ^ 2 + h.zy ^ 2)
  let c := Real.sqrt (h.xz ^ 2 + h.yz ^ 2 + h.zz ^ 2)
  let al := Real.arccos ((h.xy * h.xz + h.yy * h.yz + h.zy * h.zz) / (b * c))
  let be := Real.arccos ((h.xx * h.xz + h.yx * h.yz + h.zx * h.zz) / (a * c))
  let ga := Real.arccos ((h.xx * h.xy + h.yx * h.yy + h.zx * h.zy) / (a * b))
  ⟨a, b, c, al, be, ga⟩

/-- Modelled from the spec: `ipi.utils.mathtools.h2abc_deg` — same as
`h2abc` but with the three angles reported in degrees, as stored by the
file format. -/
noncomputable def h2abc_deg (h : Mat3) : CellParams :=
  let p := h2abc h
  ⟨p.a, p.b, p.c, rad2deg p.alpha, rad2deg p.beta, rad2deg p.gamma⟩

/-- The composite the spec's round-trip property is about: matrix → lengths
and degree angles (as written by the writer) → degree-to-radian conversion →
matrix (as done by the reader). -/
noncomputable def roundTrip (h : Mat3) : Mat3 :=
  let p := h2abc_deg h
  abc2h p.a p.b p.c (deg2rad p.alpha) (deg2rad p.beta) (deg2rad p.gamma)

/-- The record variables of an open NetCDF trajectory file.  A field is
`none` when the file (possibly produced by another program) lacks the
variable, in which case the Python dictionary lookup raises `KeyError`.
`natoms` is the size of the fixed `atom` dimension, the second extent of
the `coordinates` variable. -/
structure NCData where
  natoms : Nat
  time : Option (List ℝ)
  coordinates : Option (List (List Vec3))
  cell_lengths : Option (List Vec3)
  cell_angles : Option (List Vec3)

/-- Growth step of scipy's record-variable `__setitem__`: before writing
record `i`, the record array is resized to `i + 1` records when it is
shorter, the new records filled with `pad` (the zero fill). -/
def resizeRec (pad : α) (l : List α) (i : Nat) : List α :=
  if l.length < i + 1 then l ++ List.replicate (i + 1 - l.length) pad else l

/-- Assignment `var[i] = v` on a record variable of a NetCDF file open for
writing, following scipy's `netcdf_variable.__setitem__`: the record array
is first grown zero-filled to cover index `i`, then the record at `i` is
assigned in place.  The growth happens even when the subsequent assignment
fails. -/
def setRec (pad : α) (l : List α) (i : Nat) (v : α) : List α :=
  (resizeRec pad l i).set i v

/-- A declared dimension: name and size, `none` for the unlimited dimension. -/
structure NCDim where
  dimName : String
  size : Option Nat
deriving DecidableEq

/-- A declared variable: name, dimension names in order, the `units`
attribute when one is set, and the constant label data written at creation
for the label variables (character rows re-encoded as strings). -/
structure NCVarDecl where
  varName : String
  dims : List String
  units : Option String
  constData : Option (List String)
deriving DecidableEq

/-- A freshly created trajectory file: the global attributes, the declared
dimensions and variables, and the (empty) record variable data. -/
structure NCFile where
  conventions : String
  conventionVersion : String
  application : String
  program : String
  programVersion : String
  fileName : String
  dims : List NCDim
  varDecls : List NCVarDecl
  data : NCData

/-- `NewAmberNetCDF(filename, natoms)`: creates a new NetCDF file populated
with the Amber trajectory convention's global attributes, dimensions and
variables, all record variables empty. -/
def NewAmberNetCDF (filename : String) (natoms : Nat) : NCFile where
  conventions := "AMBER"
  conventionVersion := "1.0"
  application := "AMBER"
  program := "i-pi"
  programVersion := "unknown"
  fileName := filename
  dims := [⟨"frame", none⟩, ⟨"spatial", some 3⟩, ⟨"cell_spatial", some 3⟩,
    ⟨"cell_angular", some 3⟩, ⟨"label", some 5⟩, ⟨"atom", some natoms⟩]
  varDecls := [
    ⟨"time", ["frame"], some "picosecond", none⟩,
    ⟨"spatial", ["spatial"], none, some ["x", "y", "z"]⟩,
    ⟨"coordinates", ["frame", "atom", "spatial"], some "angstrom", none⟩,
    ⟨"cell_spatial", ["cell_spatial"], none, some ["a", "b", "c"]⟩,
    ⟨"cell_angular", ["cell_angular", "label"], none, some ["alpha", "beta ", "gamma"]⟩,
    ⟨"cell_lengths", ["frame", "cell_spatial"], some "angstrom", none⟩,
    ⟨"cell_angles", ["frame", "cell_angular"], some "degree", none⟩]
  data := ⟨natoms, some [], some [], some [], some []⟩

/-- Errors an append can raise: `keyError` for a missing variable in the
dictionary lookup, `valueError` for the numpy broadcast failure when the
coordinate array's shape does not fit the target slice. -/
inductive WErr where
  | keyError : WErr
  | valueError : WErr
deriving DecidableEq

/-- `AppendAmberFrame(netcdfobj, crds, cell, filename, time=None)` for a
non-`None` `netcdfobj` (lines 119–126 of the source; the `None` branch only
resolves the handle by opening or creating the file).  Returns the result
together with the post-state: the frame index is the current length of the
`time` variable, the `time` entry is written first, then the coordinates
slice assignment.  Following scipy's record-variable `__setitem__`, the
coordinates record array is grown zero-filled to `idx + 1` records before
the element assignment, which numpy accepts when the source's first extent
equals the `atom` dimension or is 1 (broadcast) and otherwise rejects with
a shape mismatch — by then both the `time` write and the zero-filled
growth of `coordinates` have already happened.  On success the cell
lengths and angles rows follow. -/
def AppendAmberFrame (f : NCData) (crds : List Vec3) (cell : CellParams)
    (t : Option ℝ) : Except WErr Unit × NCData :=
  match f.time with
  | none => (.error .keyError, f)
  | some tv =>
    let idx := tv.length
    let tval := t.getD (idx : ℝ)
    let f1 : NCData := { f with time := some (setRec 0 tv idx tval) }
    match f1.coordinates with
    | none => (.error .keyError, f1)
    | some cv =>
      let zeroRec : List Vec3 := List.replicate f.natoms ⟨0, 0, 0⟩
      let writeRows : List Vec3 → Except WErr Unit × NCData := fun rows =>
        let f2 : NCData := { f1 with coordinates := some (setRec zeroRec cv idx rows) }
        match f2.cell_lengths with
        | none => (.error .keyError, f2)
        | some lv =>
          let f3 : NCData :=
            { f2 with cell_lengths := some (setRec ⟨0, 0, 0⟩ lv idx ⟨cell.a, cell.b, cell.c⟩) }
          match f3.cell_angles with
          | none => (.error .keyError, f3)
          | some av =>
            (.ok (), { f3 with
              cell_angles := some (setRec ⟨0, 0, 0⟩ av idx ⟨cell.alpha, cell.beta, cell.gamma⟩) })
      if crds.length = f.natoms then writeRows crds
      else if crds.length = 1 then writeRows (List.replicate f.natoms (crds.headD ⟨0, 0, 0⟩))
      else (.error .valueError, { f1 with coordinates := some (resizeRec zeroRec cv idx) })

/-- A read handle (`NCInput`): the open file data, the cached shape of the
`coordinates` variable, and the frame cursor.  `close` sets `shape` and
`cframe` to `None`, modelled by `Option`. -/
structure NCInput where
  out : NCData
  shape : Option (Nat × Nat × Nat)
  cframe : Option Nat

/-- Error raised on opening a read handle: the storage library's
file-not-found failure.  Modelled from the spec: the underlying NetCDF
library (an external collaborator, not under `src/`) raises it when the
path does not exist. -/
inductive OpenErr where
  | notFound : OpenErr
deriving DecidableEq

/-- `NCInput.__init__(filename)`: opens the file read-only (failing when
the path has no file), initialises `shape` to `(0, 0, 0)` and `cframe` to
0, then caches the shape of the `coordinates` variable when the file has
one.  `disk` is the file found at the path, `none` when the path does not
exist. -/
def NCInput.init (disk : Option NCData) : Except OpenErr NCInput :=
  match disk with
  | none => .error .notFound
  | some d =>
    .ok { out := d
          shape := some (match d.coordinates with
            | none => (0, 0, 0)
            | some cs => (cs.length, d.natoms, 3))
          cframe := some 0 }

/-- `NCInput.close()`: invalidates the cached shape and the cursor (sets
both to `None`; the underlying file object is also closed by the external
library). -/
def NCInput.close (s : NCInput) : NCInput :=
  { s with shape := none, cframe := none }

/-- Errors and signals a read can raise: `eof` is the `EOFError`
end-of-trajectory signal; `useAfterClose` is the `TypeError` raised when
the cursor or shape has been set to `None` by `close`; `keyError` is a
missing-variable dictionary lookup; `idxError` an out-of-range record
index. -/
inductive ReadErr where
  | eof : ReadErr
  | useAfterClose : ReadErr
  | keyError : ReadErr
  | idxError : ReadErr
deriving DecidableEq

/-- The tuple returned by `read_nc`: comment line, optional cell matrix,
flattened positions, atom names and masses. -/
structure ReadFrame where
  comment : String
  cell : Option Mat3
  qatoms : List ℝ
  names : List String
  masses : List ℝ

/-- Flattening of a coordinates record `(atoms × 3)` to a flat list. -/
def flattenRows : List Vec3 → List ℝ
  | [] => []
  | v :: rest => v.x :: v.y :: v.z :: flattenRows rest

/-- `read_nc(filedesc)`: when the cursor and shape are valid and the cursor
is below the frame count, reads the coordinates record at the cursor,
builds placeholder masses (all zero) and names (all `"XX"`), reads the cell
lengths and angles when the file has a `cell_lengths` variable (the
`cell_angles` lookup is unguarded and raises `KeyError` when that variable
alone is missing), converts the angles to radians and the six parameters to
a matrix, advances the cursor and returns; at or past the frame count it
raises `EOFError`; after `close` it fails on the `None` cursor/shape. -/
noncomputable def read_nc (s : NCInput) : Except ReadErr ReadFrame × NCInput :=
  match s.cframe, s.shape with
  | some i, some sh =>
    if i < sh.1 then
      let nat := sh.2.1
      let masses := List.replicate nat (0 : ℝ)
      let names := List.replicate nat "XX"
      match s.out.coordinates with
      | none => (.error .keyError, s)
      | some cs =>
        if hc : i < cs.length then
          let qatoms := flattenRows (cs.get ⟨i, hc⟩)
          match s.out.cell_lengths with
          | none =>
            (.ok ⟨"# positions{angstrom} cell{angstrom}", none, qatoms, names, masses⟩,
              { s with cframe := some (i + 1) })
          | some lv =>
            if hl : i < lv.length then
              match s.out.cell_angles with
              | none => (.error .keyError, s)
              | some av =>
                if ha : i < av.length then
                  let lrow := lv.get ⟨i, hl⟩
                  let arow := av.get ⟨i, ha⟩
                  let cell := abc2h lrow.x lrow.y lrow.z
                    (deg2rad arow.x) (deg2rad arow.y) (deg2rad arow.z)
                  (.ok ⟨"# positions{angstrom} cell{angstrom}", some cell, qatoms, names, masses⟩,
                    { s with cframe := some (i + 1) })
                else (.error .idxError, s)
            else (.error .idxError, s)
        else (.error .idxError, s)
    else (.error .eof, s)
  | _, _ => (.error .useAfterClose, s)

/-- The names component of a read result, `[]` on error. -/
def readNames (e : Except ReadErr ReadFrame) : List String :=
  match e with
  | .ok fr => fr.names
  | .error _ => []

/-- A 3-atom trajectory file with all variables present and no frames yet. -/
def fC1 : NCData := ⟨3, some [], some [], some [], some []⟩

/-- A 2-row coordinate array (2 atoms, wrong for a 3-atom file). -/
def crdsC1 : List Vec3 := [⟨0, 0, 0⟩, ⟨1, 0, 0⟩]

/-- An all-zero cell parameter list. -/
def cellC1 : CellParams := ⟨0, 0, 0, 0, 0, 0⟩

/-- A 2-atom trajectory file with all variables present and no frames yet. -/
def fC5 : NCData := ⟨2, some [], some [], some [], some []⟩

/-- A 2-row coordinate array matching `fC5`. -/
def crdsC5 : List Vec3 := [⟨0, 0, 0⟩, ⟨1, 0, 0⟩]

/-- An all-zero cell parameter list. -/
def cellC5 : CellParams := ⟨0, 0, 0, 0, 0, 0⟩

/-- File contents with no variables at all (in particular no `coordinates`). -/
def dC2 : NCData := ⟨0, none, none, none, none⟩

/-- A read handle on a 2-atom, 1-frame file with no cell variables, cursor 0. -/
def sC3 : NCInput :=
  ⟨⟨2, some [0], some [[⟨0, 0, 0⟩, ⟨1, 0, 0⟩]], none, none⟩, some (1, 2, 3), some 0⟩

/-- The frame `read_nc` returns from `sC3`. -/
def frC3 : ReadFrame :=
  ⟨"# positions{angstrom} cell{angstrom}", none, [0, 0, 0, 1, 0, 0], ["XX", "XX"], [0, 0]⟩

/-- An exhausted read handle: 1-frame file, cursor already at 1. -/
def sC4 : NCInput := ⟨⟨1, some [0], some [[⟨0, 0, 0⟩]], none, none⟩, some (1, 1, 3), some 1⟩

/-- A read handle on a 2-atom, 1-frame file lacking both cell variables. -/
def sC7 : NCInput :=
  ⟨⟨2, some [0], some [[⟨0, 0, 0⟩, ⟨1, 0, 0⟩]], none, none⟩, some (1, 2, 3), some 0⟩

/-- A read handle on a file with `cell_lengths` but no `cell_angles`. -/
def sC10 : NCInput :=
  ⟨⟨1, some [0], some [[⟨0, 0, 0⟩]], some [⟨10, 10, 10⟩], none⟩, some (1, 1, 3), some 0⟩

/-- A positive-volume lattice matrix that is not in canonical form: its
columns are the lattice vectors `(0,1,0)`, `(0,0,1)`, `(1,0,0)` (a rotated
cube of volume 1). -/
def hPerm : Mat3 := ⟨0, 0, 1, 1, 0, 0, 0, 1, 0⟩

theorem set_append_length (l : List α) (pad v : α) :
    (l ++ [pad]).set l.length v = l ++ [v] := by
  induction l with
  | nil => rfl
  | cons a t ih => simp [ih]

theorem setRec_append (pad : α) (l : List α) (v : α) :
    setRec pad l l.length v = l ++ [v] := by
  have h1 : l.length + 1 - l.length = 1 := by omega
  simp [setRec, resizeRec, h1, set_append_length]

theorem deg2rad_rad2deg (x : ℝ) : deg2rad (rad2deg x) = x := by
  unfold deg2rad rad2deg
  field_simp

/-- C6: creating a new trajectory file for N atoms declares exactly the
dimensions frame (unlimited), spatial=3, cell_spatial=3, cell_angular=3,
label=5, atom=N, and exactly the variables time (picosecond), spatial
(labels x/y/z), coordinates (frame × atom × spatial, angstrom),
cell_spatial/cell_angular (constant labels), cell_lengths (frame × 3,
angstrom), cell_angles (frame × 3, degree), plus the global attributes
Conventions="AMBER" and ConventionVersion="1.0". -/
theorem NewAmberNetCDF_schema (fn : String) (n : Nat) :
    (NewAmberNetCDF fn n).dims =
      [⟨"frame", none⟩, ⟨"spatial", some 3⟩, ⟨"cell_spatial", some 3⟩,
        ⟨"cell_angular", some 3⟩, ⟨"label", some 5⟩, ⟨"atom", some n⟩] ∧
    (NewAmberNetCDF fn n).varDecls =
      [⟨"time", ["frame"], some "picosecond", none⟩,
        ⟨"spatial", ["spatial"], none, some ["x", "y", "z"]⟩,
        ⟨"coordinates", ["frame", "atom", "spatial"], some "angstrom", none⟩,
        ⟨"cell_spatial", ["cell_spatial"], none, some ["a", "b", "c"]⟩,
        ⟨"cell_angular", ["cell_angular", "label"], none, some ["alpha", "beta ", "gamma"]⟩,
        ⟨"cell_lengths", ["frame", "cell_spatial"], some "angstrom", none⟩,
        ⟨"cell_angles", ["frame", "cell_angular"], some "degree", none⟩] ∧
    (NewAmberNetCDF fn n).conventions = "AMBER" ∧
    (NewAmberNetCDF fn n).conventionVersion = "1.0" :=
  ⟨rfl, rfl, rfl, rfl⟩

/-- C8: after `close` the cached shape and cursor are `None`, so every
subsequent `read_nc` on the handle fails (the use-after-close failure) and
never returns stale data. -/
theorem read_nc_after_close (s : NCInput) :
    read_nc (NCInput.close s) = (.error .useAfterClose, NCInput.close s) := rfl

/-- C4: when the cursor is at or past the frame count, `read_nc` signals
end-of-trajectory and leaves the handle (cursor, shape and stored data)
unchanged, so repeated calls keep signalling it identically. -/
theorem read_nc_exhausted (s : NCInput) (i : Nat) (sh : Nat × Nat × Nat)
    (hc : s.cframe = some i) (hs : s.shape = some sh) (hge : sh.1 ≤ i) :
    read_nc s = (.error .eof, s) := by
  unfold read_nc
  rw [hc, hs]
  simp [Nat.not_lt.mpr hge]

/-- Witness for C4 at a concrete exhausted handle. -/
theorem read_nc_exhausted_witness : read_nc sC4 = (.error .eof, sC4) :=
  read_nc_exhausted sC4 1 (1, 1, 3) rfl rfl (by decide)

/-- C2 counterexample: opening a file that exists but lacks the
`coordinates` variable does not fail with a format error — it succeeds,
producing a handle with shape `(0,0,0)` on which reading signals
end-of-trajectory. -/
theorem NCInput_init_no_format_error :
    NCInput.init (some dC2) = .ok ⟨dC2, some (0, 0, 0), some 0⟩ ∧
    read_nc ⟨dC2, some (0, 0, 0), some 0⟩ = (.error .eof, ⟨dC2, some (0, 0, 0), some 0⟩) :=
  ⟨rfl, rfl⟩

/-- C2 amended: opening a missing path fails with the storage library's
not-found error; opening an existing file lacking the `coordinates`
variable succeeds, yielding a handle with shape `(0,0,0)` and cursor 0
(so every read on it signals end-of-trajectory rather than failing). -/
theorem NCInput_init_spec :
    NCInput.init none = .error .notFound ∧
    ∀ d : NCData, d.coordinates = none →
      NCInput.init (some d) = .ok ⟨d, some (0, 0, 0), some 0⟩ := by
  refine ⟨rfl, fun d hd => ?_⟩
  simp [NCInput.init, hd]

/-- Witness for C2 amended at concrete inputs. -/
theorem NCInput_init_spec_witness :
    NCInput.init none = .error .notFound ∧
    NCInput.init (some dC2) = .ok ⟨dC2, some (0, 0, 0), some 0⟩ :=
  ⟨NCInput_init_spec.1, NCInput_init_spec.2 dC2 rfl⟩

/-- C7: reading a frame from a file lacking the cell variables succeeds,
returns an absent cell, the flattened coordinates at the cursor, and
populated placeholder names and masses, and advances the cursor. -/
theorem read_nc_missing_cell (s : NCInput) (i : Nat) (sh : Nat × Nat × Nat)
    (cs : List (List Vec3))
    (hc : s.cframe = some i) (hs : s.shape = some sh)
    (hcoord : s.out.coordinates = some cs)
    (hlt : i < sh.1) (hlen : i < cs.length)
    (hL : s.out.cell_lengths = none) (hA : s.out.cell_angles = none) :
    read_nc s = (.ok ⟨"# positions{angstrom} cell{angstrom}", none,
      flattenRows (cs.get ⟨i, hlen⟩), List.replicate sh.2.1 "XX",
      List.replicate sh.2.1 0⟩, { s with cframe := some (i + 1) }) := by
  unfold read_nc
  rw [hc, hs, hcoord, hL]
  simp [hlt, hlen]

/-- Witness for C7 at a concrete cell-less 2-atom file. -/
theorem read_nc_missing_cell_witness :
    read_nc sC7 = (.ok ⟨"# positions{angstrom} cell{angstrom}", none,
      [0, 0, 0, 1, 0, 0], ["XX", "XX"], [0, 0]⟩, { sC7 with cframe := some 1 }) :=
  read_nc_missing_cell sC7 0 (1, 2, 3) [[⟨0, 0, 0⟩, ⟨1, 0, 0⟩]]
    rfl rfl rfl (by decide) (by decide) rfl rfl

/-- C10: the cell-absence check inspects only `cell_lengths`; on a file
with `cell_lengths` but no `cell_angles`, `read_nc` raises the missing-key
failure on the `cell_angles` lookup and leaves the handle (in particular
the cursor) unchanged. -/
theorem read_nc_missing_cell_angles (s : NCInput) (i : Nat) (sh : Nat × Nat × Nat)
    (cs : List (List Vec3)) (lv : List Vec3)
    (hc : s.cframe = some i) (hs : s.shape = some sh)
    (hcoord : s.out.coordinates = some cs)
    (hlt : i < sh.1) (hlen : i < cs.length)
    (hL : s.out.cell_lengths = some lv) (hl2 : i < lv.length)
    (hA : s.out.cell_angles = none) :
    read_nc s = (.error .keyError, s) := by
  unfold read_nc
  rw [hc, hs, hcoord, hL, hA]
  simp [hlt, hlen, hl2]

/-- Witness for C10 at a concrete file with lengths but no angles. -/
theorem read_nc_missing_cell_angles_witness :
    read_nc sC10 = (.error .keyError, sC10) :=
  read_nc_missing_cell_angles sC10 0 (1, 1, 3) [[⟨0, 0, 0⟩]] [⟨10, 10, 10⟩]
    rfl rfl rfl (by decide) (by decide) rfl (by decide) rfl

/-- C3 counterexample: in the 2-atom scenario the labels returned by a
successful read are `["XX", "XX"]`, not `["", ""]`. -/
theorem read_nc_names_not_empty :
    readNames (read_nc sC3).1 = ["XX", "XX"] ∧ (["XX", "XX"] : List String) ≠ ["", ""] :=
  ⟨rfl, by decide⟩

/-- C3 amended: every successful read returns placeholder identity — the
labels are the unknown-element marker `"XX"` repeated and every mass is
zero (one entry per atom, the second shape component). -/
theorem read_nc_placeholder_identity (s s' : NCInput) (fr : ReadFrame)
    (h : read_nc s = (.ok fr, s')) :
    ∃ n : Nat, fr.names = List.replicate n "XX" ∧ fr.masses = List.replicate n (0 : ℝ) := by
  unfold read_nc at h
  repeat' split at h
  all_goals first
    | (simp only [Prod.mk.injEq, Except.ok.injEq] at h
       exact ⟨_, by rw [← h.1], by rw [← h.1]⟩)
    | simp at h

/-- Witness for C3 amended at the concrete 2-atom scenario. -/
theorem read_nc_placeholder_identity_witness :
    ∃ n : Nat, frC3.names = List.replicate n "XX" ∧ frC3.masses = List.replicate n (0 : ℝ) :=
  read_nc_placeholder_identity sC3 { sC3 with cframe := some 1 } frC3 rfl

/-- C5: an append uses the current length of the `time` variable as the
frame index — the `time` entry lands right after the existing entries, with
the frame index itself as value when the caller omits the time argument and
the supplied value otherwise, and the coordinates record is written at that
same index. -/
theorem AppendAmberFrame_time_index (f : NCData) (tv : List ℝ) (cv : List (List Vec3))
    (crds : List Vec3) (cell : CellParams) (tsup : ℝ) (t : Option ℝ)
    (ht : f.time = some tv) (hco : f.coordinates = some cv)
    (hn : crds.length = f.natoms) :
    ((AppendAmberFrame f crds cell none).2.time = some (tv ++ [(tv.length : ℝ)])) ∧
    ((AppendAmberFrame f crds cell (some tsup)).2.time = some (tv ++ [tsup])) ∧
    ((AppendAmberFrame f crds cell t).2.coordinates =
      some (setRec (List.replicate f.natoms ⟨0, 0, 0⟩) cv tv.length crds)) := by
  have key : ∀ u : Option ℝ,
      ((AppendAmberFrame f crds cell u).2.time = some (tv ++ [u.getD (tv.length : ℝ)])) ∧
      ((AppendAmberFrame f crds cell u).2.coordinates =
        some (setRec (List.replicate f.natoms ⟨0, 0, 0⟩) cv tv.length crds)) := by
    intro u
    rcases hcl : f.cell_lengths with _ | lv <;> rcases hca : f.cell_angles with _ | av <;>
      simp [AppendAmberFrame, ht, hco, hcl, hca, hn, setRec_append]
  exact ⟨((key none).1), ((key (some tsup)).1), (key t).2⟩

/-- Witness for C5 at a concrete 2-atom file with a matching frame. -/
theorem AppendAmberFrame_time_index_witness :
    ((AppendAmberFrame fC5 crdsC5 cellC5 none).2.time = some [((0 : Nat) : ℝ)]) ∧
    ((AppendAmberFrame fC5 crdsC5 cellC5 (some 7)).2.time = some [(7 : ℝ)]) ∧
    ((AppendAmberFrame fC5 crdsC5 cellC5 none).2.coordinates =
      some (setRec (List.replicate fC5.natoms ⟨0, 0, 0⟩) [] 0 crdsC5)) :=
  AppendAmberFrame_time_index fC5 [] [] crdsC5 cellC5 7 none rfl rfl rfl

/-- C1 counterexample: appending a 2-atom coordinate array to a 3-atom file
does fail, but only after partial frame data has been written — the `time`
variable (the frame count) grows from 0 to 1 entries, and the
`coordinates` record variable grows from 0 to 1 records (a zero-filled
record, left by scipy's resize-before-assign). -/
theorem AppendAmberFrame_mismatch_writes_time :
    (AppendAmberFrame fC1 crdsC1 cellC1 none).1 = .error .valueError ∧
    (AppendAmberFrame fC1 crdsC1 cellC1 none).2.time.map List.length = some 1 ∧
    fC1.time.map List.length = some 0 ∧
    (AppendAmberFrame fC1 crdsC1 cellC1 none).2.coordinates =
      some [List.replicate 3 (⟨0, 0, 0⟩ : Vec3)] ∧
    fC1.coordinates = some ([] : List (List Vec3)) :=
  ⟨rfl, rfl, rfl, rfl, rfl⟩

/-- C1 amended: appending coordinates whose first dimension is neither the
file's atom count nor 1 (which numpy would broadcast) fails with the array
library's shape-mismatch error, not a dedicated atom-count error, and by
then partial frame data has already been written: the `time` entry for the
new frame index, and a zero-filled record appended to `coordinates` by
scipy's resize-before-assign growth of the record array; the cell
variables stay unchanged. -/
theorem AppendAmberFrame_mismatch (f : NCData) (tv : List ℝ) (cv : List (List Vec3))
    (crds : List Vec3) (cell : CellParams) (t : Option ℝ)
    (ht : f.time = some tv) (hco : f.coordinates = some cv)
    (hne : crds.length ≠ f.natoms) (hone : crds.length ≠ 1) :
    AppendAmberFrame f crds cell t =
      (.error .valueError,
        { f with
          time := some (tv ++ [t.getD (tv.length : ℝ)])
          coordinates :=
            some (resizeRec (List.replicate f.natoms ⟨0, 0, 0⟩) cv tv.length) }) := by
  simp [AppendAmberFrame, ht, hco, hne, hone, setRec_append]

/-- Witness for C1 amended at the concrete 3-atom file and 2-atom frame. -/
theorem AppendAmberFrame_mismatch_witness :
    AppendAmberFrame fC1 crdsC1 cellC1 none =
      (.error .valueError,
        { fC1 with
          time := some [((0 : Nat) : ℝ)]
          coordinates := some [List.replicate 3 (⟨0, 0, 0⟩ : Vec3)] }) :=
  AppendAmberFrame_mismatch fC1 [] [] crdsC1 cellC1 none rfl rfl (by decide) (by decide)

theorem h2abc_canonical (p q r u v w : ℝ) (hp : 0 < p) :
    h2abc ⟨p, q, r, 0, u, v, 0, 0, w⟩ =
      ⟨p, Real.sqrt (q ^ 2 + u ^ 2), Real.sqrt (r ^ 2 + v ^ 2 + w ^ 2),
        Real.arccos ((q * r + u * v) /
          (Real.sqrt (q ^ 2 + u ^ 2) * Real.sqrt (r ^ 2 + v ^ 2 + w ^ 2))),
        Real.arccos (r / Real.sqrt (r ^ 2 + v ^ 2 + w ^ 2)),
        Real.arccos (q / Real.sqrt (q ^ 2 + u ^ 2))⟩ := by
  unfold h2abc
  dsimp only
  rw [show p ^ 2 + (0 : ℝ) ^ 2 + 0 ^ 2 = p ^ 2 by ring,
    show q ^ 2 + u ^ 2 + (0 : ℝ) ^ 2 = q ^ 2 + u ^ 2 by ring,
    show q * r + u * v + (0 : ℝ) * w = q * r + u * v by ring,
    show p * r + (0 : ℝ) * v + 0 * w = p * r by ring,
    show p * q + (0 : ℝ) * u + 0 * 0 = p * q by ring,
    Real.sqrt_sq hp.le,
    mul_div_mul_left r _ hp.ne',
    mul_div_mul_left q _ hp.ne']

/-- C9 amended: the matrix↔(a,b,c,α,β,γ) transform round-trips exactly (in
the exact-real model) on matrices of the canonical form the inverse
construction produces — first lattice vector along the x axis, second in
the x-y plane, positive diagonal.  For a general positive-volume matrix the
round trip instead returns the canonical representative (see the
counterexample). -/
theorem roundTrip_canonical (h : Mat3)
    (hyx : h.yx = 0) (hzx : h.zx = 0) (hzy : h.zy = 0)
    (hxx : 0 < h.xx) (hyy : 0 < h.yy) (hzz : 0 < h.zz) :
    roundTrip h = h := by
  obtain ⟨p, q, r, yx, u, v, zx, zy, w⟩ := h
  dsimp only at hyx hzx hzy hxx hyy hzz
  subst hyx
  subst hzx
  subst hzy
  unfold roundTrip h2abc_deg
  rw [h2abc_canonical p q r u v w hxx]
  dsimp only
  simp only [deg2rad_rad2deg]
  unfold abc2h
  dsimp only
  set B := Real.sqrt (q ^ 2 + u ^ 2) with hB
  set C := Real.sqrt (r ^ 2 + v ^ 2 + w ^ 2) with hC
  have hBpos : 0 < B := by
    rw [hB]
    exact Real.sqrt_pos.mpr (by nlinarith [sq_nonneg q, pow_pos hyy 2])
  have hCpos : 0 < C := by
    rw [hC]
    exact Real.sqrt_pos.mpr (by nlinarith [sq_nonneg r, sq_nonneg v, pow_pos hzz 2])
  have hB2 : B ^ 2 = q ^ 2 + u ^ 2 := by
    rw [hB]
    exact Real.sq_sqrt (by positivity)
  have hC2 : C ^ 2 = r ^ 2 + v ^ 2 + w ^ 2 := by
    rw [hC]
    exact Real.sq_sqrt (by positivity)
  have hqB : |q| ≤ B := by
    rw [hB, ← Real.sqrt_sq_eq_abs]
    exact Real.sqrt_le_sqrt (by nlinarith [sq_nonneg u])
  have hrC : |r| ≤ C := by
    rw [hC, ← Real.sqrt_sq_eq_abs]
    exact Real.sqrt_le_sqrt (by nlinarith [sq_nonneg v, sq_nonneg w])
  obtain ⟨hq1', hq2'⟩ := abs_le.mp hqB
  obtain ⟨hr1', hr2'⟩ := abs_le.mp hrC
  have hq1 : -1 ≤ q / B := (le_div_iff₀ hBpos).mpr (by linarith)
  have hq2 : q / B ≤ 1 := (div_le_one hBpos).mpr hq2'
  have hr1 : -1 ≤ r / C := (le_div_iff₀ hCpos).mpr (by linarith)
  have hr2 : r / C ≤ 1 := (div_le_one hCpos).mpr hr2'
  have hBC : 0 < B * C := mul_pos hBpos hCpos
  have hDabs : |q * r + u * v| ≤ B * C := by
    rw [← Real.sqrt_sq_eq_abs]
    have h1 : (q * r + u * v) ^ 2 ≤ (B * C) ^ 2 := by
      rw [mul_pow, hB2, hC2]
      nlinarith [sq_nonneg (q * v - u * r),
        mul_nonneg (add_nonneg (sq_nonneg q) (sq_nonneg u)) (sq_nonneg w)]
    calc Real.sqrt ((q * r + u * v) ^ 2) ≤ Real.sqrt ((B * C) ^ 2) :=
          Real.sqrt_le_sqrt h1
      _ = B * C := Real.sqrt_sq hBC.le
  obtain ⟨hD1', hD2'⟩ := abs_le.mp hDabs
  have hD1 : -1 ≤ (q * r + u * v) / (B * C) := (le_div_iff₀ hBC).mpr (by linarith)
  have hD2 : (q * r + u * v) / (B * C) ≤ 1 := (div_le_one hBC).mpr hD2'
  rw [Real.cos_arccos hD1 hD2, Real.cos_arccos hr1 hr2, Real.cos_arccos hq1 hq2,
    Real.sin_arccos]
  have hsin : Real.sqrt (1 - (q / B) ^ 2) = u / B := by
    rw [show 1 - (q / B) ^ 2 = u ^ 2 / B ^ 2 by field_simp; linarith [hB2],
      Real.sqrt_div (sq_nonneg u), Real.sqrt_sq hyy.le, Real.sqrt_sq hBpos.le]
  rw [hsin]
  have e1 : B * (q / B) = q := by field_simp
  have e2 : C * (r / C) = r := by field_simp
  have e3 : B * C * ((q * r + u * v) / (B * C)) = q * r + u * v := by field_simp
  have e4 : B * (u / B) = u := by field_simp
  rw [e1, e2, e3, e4]
  have e5 : (q * r + u * v - q * r) / u = v := by
    field_simp
  rw [e5]
  have e6 : C ^ 2 - r ^ 2 - v ^ 2 = w ^ 2 := by
    rw [hC2]
    ring
  rw [e6, Real.sqrt_sq hzz.le]

/-- C9 counterexample: the round trip is not the identity on every
positive-volume matrix — on the rotated cube `hPerm` (volume 1) the
reconstructed matrix is the canonical form, whose first entry is 1 while
the original's is 0. -/
theorem roundTrip_not_id_hPerm :
    0 < det3 hPerm ∧ (roundTrip hPerm).xx = 1 ∧ hPerm.xx = 0 := by
  refine ⟨by norm_num [det3, hPerm], ?_, rfl⟩
  have hx : (roundTrip hPerm).xx = Real.sqrt ((0 : ℝ) ^ 2 + 1 ^ 2 + 0 ^ 2) := rfl
  rw [hx]
  norm_num

/-- Witness for C9 amended at a concrete canonical (upper-triangular,
positive-diagonal) matrix. -/
theorem roundTrip_canonical_witness :
    (0 : ℝ) < 2 ∧ roundTrip ⟨2, 1, 1, 0, 3, 1, 0, 0, 4⟩ = ⟨2, 1, 1, 0, 3, 1, 0, 0, 4⟩ :=
  ⟨by norm_num, roundTrip_canonical ⟨2, 1, 1, 0, 3, 1, 0, 0, 4⟩ rfl rfl rfl
    (by norm_num) (by norm_num) (by norm_num)⟩

end IoNc
